import Mathlib

/-!
Verification of the `sns` package (Amazon SNS HTTP payload verification helpers).

The Go source is shallowly embedded: the `Payload` record and the pure
functions (`BuildSignature`, `SignatureAlgorithm`, the certificate-host
pattern) are translated as executable Lean definitions; the effectful entry
points (`VerifyPayload`, `Subscribe`, `Unsubscribe`) are translated as
functions over an explicit environment `Env` that supplies the Go standard
library primitives they call (base64 decoding, URL parsing, HTTP GET, PEM
decoding, X.509 parsing, signature checking, XML unmarshalling), together
with an explicit count of HTTP fetches performed.
-/

namespace Sns

/-- Errors returned by the Go code and its library calls are modelled by
their message strings (Go `error` values). -/
abbrev GoErr := String

/-- The `Payload` struct: a single POST from SNS.  All twelve fields are
strings, as in the source. -/
structure Payload where
  Message          : String
  MessageId        : String
  Signature        : String
  SignatureVersion : String
  SigningCertURL   : String
  SubscribeURL     : String
  Subject          : String
  Timestamp        : String
  Token            : String
  TopicArn         : String
  «Type»           : String
  UnsubscribeURL   : String
deriving DecidableEq

/-- The ordered list of signable keys, exactly as in `BuildSignature`. -/
def signableKeys : List String :=
  ["Message", "MessageId", "Subject", "SubscribeURL", "Timestamp", "Token", "TopicArn", "Type"]

/-- Reflection-style field lookup: `reflect.Indirect(v).FieldByName(key)`.
Returns `none` (an invalid `reflect.Value`) for a name that is not a field
of `Payload`. -/
def fieldByName (p : Payload) : String → Option String
  | "Message" => some p.Message
  | "MessageId" => some p.MessageId
  | "Signature" => some p.Signature
  | "SignatureVersion" => some p.SignatureVersion
  | "SigningCertURL" => some p.SigningCertURL
  | "SubscribeURL" => some p.SubscribeURL
  | "Subject" => some p.Subject
  | "Timestamp" => some p.Timestamp
  | "Token" => some p.Token
  | "TopicArn" => some p.TopicArn
  | "Type" => some p.«Type»
  | "UnsubscribeURL" => some p.UnsubscribeURL
  | _ => none

/-- `BuildSignature`: iterate the signable keys in order; for each key whose
reflected field is valid and whose value is non-empty, append
`key ++ "\n"` and then `value ++ "\n"` to the buffer. -/
def buildSignature (p : Payload) : String :=
  signableKeys.foldl (fun acc key =>
    match fieldByName p key with
    | some value => if value ≠ "" then acc ++ (key ++ "\n") ++ (value ++ "\n") else acc
    | none => acc) ""

/-- The eight signable (name, value) pairs of a payload, in the fixed
declaration order used by the spec. -/
def signablePairs (p : Payload) : List (String × String) :=
  [("Message", p.Message), ("MessageId", p.MessageId), ("Subject", p.Subject),
   ("SubscribeURL", p.SubscribeURL), ("Timestamp", p.Timestamp), ("Token", p.Token),
   ("TopicArn", p.TopicArn), ("Type", p.«Type»)]

/-- Spec-side canonical bytes: the concatenation, over the eight signable
fields in the fixed order, of `"<Name>\n<Value>\n"` for each non-empty
field, an empty field contributing the empty string. -/
def canonicalSpec (p : Payload) : String :=
  String.join ((signablePairs p).map (fun kv =>
    if kv.2 = "" then "" else kv.1 ++ "\n" ++ kv.2 ++ "\n"))

/-- The two `x509.SignatureAlgorithm` values the source can select. -/
inductive SignatureAlgorithm where
  | SHA1WithRSA
  | SHA256WithRSA
deriving DecidableEq

/-- `SignatureAlgorithm`: the algorithm for the payload's AWS signature
version: `"2"` selects SHA-256-with-RSA, everything else SHA-1-with-RSA. -/
def signatureAlgorithm (p : Payload) : SignatureAlgorithm :=
  if p.SignatureVersion = "2" then SignatureAlgorithm.SHA256WithRSA
  else SignatureAlgorithm.SHA1WithRSA

/-- A concrete sample payload used to instantiate witnesses. -/
def samplePayload : Payload :=
  ⟨"mymessage", "mid-1", "c2lnbmF0dXJl", "1",
   "https://sns.us-east-1.amazonaws.com/cert.pem",
   "https://sns.us-east-1.amazonaws.com/sub", "subj",
   "2012-04-25T21:49:27.719Z", "tok", "arn:aws:sns:us-east-1:123:topic",
   "Notification", "https://sns.us-east-1.amazonaws.com/unsub"⟩

/-- The sample payload with signature version `"2"`. -/
def samplePayloadV2 : Payload :=
  { samplePayload with SignatureVersion := "2" }

/-- The sample payload with a newline embedded in its Message. -/
def samplePayloadNewline : Payload :=
  { samplePayload with Message := "line1\nline2" }

/-- The sample payload with all four unsignable fields changed. -/
def samplePayloadOtherUnsignable : Payload :=
  { samplePayload with
      Signature := "b3RoZXI=", SignatureVersion := "2",
      SigningCertURL := "https://sns.eu-west-1.amazonaws.com/cert.pem",
      UnsubscribeURL := "https://sns.eu-west-1.amazonaws.com/unsub" }

/-- A character of the region segment: the regex class `[a-zA-Z0-9-]`. -/
def isRegionChar (c : Char) : Bool :=
  ('a' ≤ c && c ≤ 'z') || ('A' ≤ c && c ≤ 'Z') || ('0' ≤ c && c ≤ '9') || c == '-'

/-- Strip a literal character sequence from the front of a list, returning
the remainder, or `none` when the literal is not a prefix. -/
def dropLit : List Char → List Char → Option (List Char)
  | [], rest => some rest
  | _ :: _, [] => none
  | p :: ps, c :: cs => if c = p then dropLit ps cs else none

/-- The host pattern `^sns\.[a-zA-Z0-9\-]{3,}\.amazonaws\.com(\.cn)?$` on a
character list: literal `sns.`, then a maximal run of region characters
(which is forced, since `.` is not a region character), of length at least
3, then `.amazonaws.com` or `.amazonaws.com.cn` to the end. -/
def hostMatchList (l : List Char) : Bool :=
  match dropLit "sns.".data l with
  | none => false
  | some rest =>
    decide (3 ≤ (rest.takeWhile isRegionChar).length) &&
      (decide (rest.dropWhile isRegionChar = ".amazonaws.com".data) ||
       decide (rest.dropWhile isRegionChar = ".amazonaws.com.cn".data))

/-- `hostPattern.Match` on a host string (the pattern is anchored at both
ends, so containment equals full match). -/
def hostMatch (s : String) : Bool := hostMatchList s.data

/-- Spec-side reading of the host pattern: literal `sns.`, then 3 or more
characters drawn from `[a-zA-Z0-9-]`, then literal `.amazonaws.com`,
optionally followed by literal `.cn`, anchored at both ends. -/
def hostSpecMatch (s : String) : Prop :=
  ∃ region : List Char, 3 ≤ region.length ∧ (∀ c ∈ region, isRegionChar c = true) ∧
    (s.data = "sns.".data ++ region ++ ".amazonaws.com".data ∨
     s.data = "sns.".data ++ region ++ ".amazonaws.com.cn".data)

/-- A parsed URL, reduced to the two components the source reads:
`certURL.Scheme` and `certURL.Host`. -/
structure Url where
  scheme : String
  host : String
deriving DecidableEq

/-- An HTTP response: the status code, and the outcome of reading its body
(`ioutil.ReadAll` may fail). -/
structure HttpResp where
  status : Nat
  bodyRead : Except GoErr (List Nat)

/-- `ConfirmSubscriptionResponse`: XML response of accessing a SubscribeURL
(the `XMLName` marker field carries no data and is omitted). -/
structure ConfirmSubscriptionResponse where
  SubscriptionArn : String
  RequestId : String
deriving DecidableEq

/-- `UnsubscribeResponse`: XML response of accessing an UnsubscribeURL. -/
structure UnsubscribeResponse where
  RequestId : String
deriving DecidableEq

/-- The Go standard-library primitives the effectful entry points call,
passed explicitly.  `Cert` is the type of parsed X.509 certificates, kept
abstract. -/
structure Env (Cert : Type) where
  base64Decode : String → Except GoErr (List Nat)
  urlParse : String → Except GoErr Url
  httpGet : String → Except GoErr HttpResp
  pemDecode : List Nat → Option (List Nat)
  parseCert : List Nat → Except GoErr Cert
  checkSignature : Cert → SignatureAlgorithm → String → List Nat → Except GoErr Unit
  xmlUnmarshalConfirm : List Nat → ConfirmSubscriptionResponse × Option GoErr
  xmlUnmarshalUnsub : List Nat → UnsubscribeResponse × Option GoErr

/-- `VerifyPayload`, with an explicit count of `http.Get` calls performed
(second component).  The steps and error values follow the source line by
line: base64-decode the signature, parse the cert URL, require scheme
`https`, require the host pattern, fetch, read the body, PEM-decode, parse
the certificate, check the signature over the canonical bytes. -/
def verifyPayloadAux {C : Type} (env : Env C) (p : Payload) : Except GoErr Unit × Nat :=
  match env.base64Decode p.Signature with
  | .error e => (.error e, 0)
  | .ok payloadSignature =>
    match env.urlParse p.SigningCertURL with
    | .error e => (.error e, 0)
    | .ok certURL =>
      if certURL.scheme ≠ "https" then (.error "url should be using https", 0)
      else if ! hostMatch certURL.host then
        (.error "certificate is located on an invalid domain", 0)
      else
        match env.httpGet p.SigningCertURL with
        | .error e => (.error e, 1)
        | .ok resp =>
          match resp.bodyRead with
          | .error e => (.error e, 1)
          | .ok body =>
            match env.pemDecode body with
            | none => (.error "The decoded PEM file was empty!", 1)
            | some der =>
              match env.parseCert der with
              | .error e => (.error e, 1)
              | .ok parsedCertificate =>
                (env.checkSignature parsedCertificate (signatureAlgorithm p)
                  (buildSignature p) payloadSignature, 1)

/-- The error result of `VerifyPayload` (`nil` is `Except.ok ()`). -/
def verifyPayload {C : Type} (env : Env C) (p : Payload) : Except GoErr Unit :=
  (verifyPayloadAux env p).1

/-- The number of `http.Get` calls a `VerifyPayload` call performs. -/
def verifyPayloadFetches {C : Type} (env : Env C) (p : Payload) : Nat :=
  (verifyPayloadAux env p).2

/-- The continuation of `VerifyPayload` from the point the certificate
response body has been read: PEM-decode, parse the certificate, check the
signature.  It takes only the body-read outcome — not the HTTP status. -/
def processCertBody {C : Type} (env : Env C) (p : Payload) (payloadSignature : List Nat) :
    Except GoErr (List Nat) → Except GoErr Unit
  | .error e => .error e
  | .ok body =>
    match env.pemDecode body with
    | none => .error "The decoded PEM file was empty!"
    | some der =>
      match env.parseCert der with
      | .error e => .error e
      | .ok parsedCertificate =>
        env.checkSignature parsedCertificate (signatureAlgorithm p)
          (buildSignature p) payloadSignature

/-- `Subscribe`, with an explicit count of `http.Get` calls (second
component).  Returns the response record paired with the Go error value. -/
def subscribeAux {C : Type} (env : Env C) (p : Payload) :
    (ConfirmSubscriptionResponse × Option GoErr) × Nat :=
  let response : ConfirmSubscriptionResponse := ⟨"", ""⟩
  if p.SubscribeURL = "" then
    ((response, some "Payload does not have a SubscribeURL!"), 0)
  else
    match env.httpGet p.SubscribeURL with
    | .error e => ((response, some e), 1)
    | .ok resp =>
      match resp.bodyRead with
      | .error e => ((response, some e), 1)
      | .ok body => (env.xmlUnmarshalConfirm body, 1)

/-- `Unsubscribe`, with an explicit count of `http.Get` calls (second
component).  Unlike `Subscribe`, there is no empty-URL precondition check:
the GET is issued unconditionally. -/
def unsubscribeAux {C : Type} (env : Env C) (p : Payload) :
    (UnsubscribeResponse × Option GoErr) × Nat :=
  let response : UnsubscribeResponse := ⟨""⟩
  match env.httpGet p.UnsubscribeURL with
  | .error e => ((response, some e), 1)
  | .ok resp =>
    match resp.bodyRead with
    | .error e => ((response, some e), 1)
    | .ok body => (env.xmlUnmarshalUnsub body, 1)

/-- An environment in which every library call succeeds. -/
def okEnv : Env Unit :=
  { base64Decode := fun _ => .ok [0],
    urlParse := fun _ => .ok ⟨"https", "sns.us-east-1.amazonaws.com"⟩,
    httpGet := fun _ => .ok ⟨200, .ok [1]⟩,
    pemDecode := fun _ => some [2],
    parseCert := fun _ => .ok (),
    checkSignature := fun _ _ _ _ => .ok (),
    xmlUnmarshalConfirm := fun _ => (⟨"arn:aws:sns:sub", "rid-1"⟩, none),
    xmlUnmarshalUnsub := fun _ => (⟨"rid-2"⟩, none) }

/-- `okEnv`, except the certificate GET answers with HTTP status 404. -/
def non2xxEnv : Env Unit :=
  { okEnv with httpGet := fun _ => .ok ⟨404, .ok [1]⟩ }

/-- `okEnv`, except base64 decoding fails. -/
def badBase64Env : Env Unit :=
  { okEnv with base64Decode := fun _ => .error "illegal base64 data at input byte 0" }

/-- `okEnv`, except the certificate URL parses with scheme `http`. -/
def httpSchemeEnv : Env Unit :=
  { okEnv with urlParse := fun _ => .ok ⟨"http", "sns.us-east-1.amazonaws.com"⟩ }

/-- `okEnv`, except the certificate GET fails at the transport level. -/
def transportErrEnv : Env Unit :=
  { okEnv with httpGet := fun _ => .error "connection refused" }

/-- The sample payload with an empty SubscribeURL. -/
def samplePayloadNoSub : Payload :=
  { samplePayload with SubscribeURL := "" }

theorem fieldByName_Message (p : Payload) : fieldByName p "Message" = some p.Message := rfl

theorem fieldByName_MessageId (p : Payload) : fieldByName p "MessageId" = some p.MessageId := rfl

theorem fieldByName_Subject (p : Payload) : fieldByName p "Subject" = some p.Subject := rfl

theorem fieldByName_SubscribeURL (p : Payload) :
    fieldByName p "SubscribeURL" = some p.SubscribeURL := rfl

theorem fieldByName_Timestamp (p : Payload) : fieldByName p "Timestamp" = some p.Timestamp := rfl

theorem fieldByName_Token (p : Payload) : fieldByName p "Token" = some p.Token := rfl

theorem fieldByName_TopicArn (p : Payload) : fieldByName p "TopicArn" = some p.TopicArn := rfl

theorem fieldByName_Type (p : Payload) : fieldByName p "Type" = some p.«Type» := rfl

theorem buildSignature_step (acc k v : String) :
    (if v ≠ "" then acc ++ (k ++ "\n") ++ (v ++ "\n") else acc)
      = acc ++ (if v = "" then "" else k ++ "\n" ++ v ++ "\n") := by
  by_cases h : v = "" <;> simp [h, String.append_assoc, String.append_empty]

theorem buildSignature_eq_canonical (p : Payload) : buildSignature p = canonicalSpec p := by
  simp only [buildSignature, signableKeys, List.foldl, fieldByName_Message,
    fieldByName_MessageId, fieldByName_Subject, fieldByName_SubscribeURL, fieldByName_Timestamp,
    fieldByName_Token, fieldByName_TopicArn, fieldByName_Type]
  simp only [canonicalSpec, signablePairs, String.join, List.map, List.foldl]
  simp only [buildSignature_step]

theorem foldl_append_str (l : List String) :
    ∀ a b : String, l.foldl (fun r s => r ++ s) (a ++ b) = a ++ l.foldl (fun r s => r ++ s) b := by
  induction l with
  | nil => intro a b; rfl
  | cons x t ih =>
    intro a b
    simp only [List.foldl]
    rw [String.append_assoc, ih]

theorem join_cons (s : String) (l : List String) :
    String.join (s :: l) = s ++ String.join l := by
  show (s :: l).foldl (fun r t => r ++ t) "" = s ++ l.foldl (fun r t => r ++ t) ""
  simp only [List.foldl]
  rw [String.empty_append]
  calc l.foldl (fun r t => r ++ t) s
      = l.foldl (fun r t => r ++ t) (s ++ "") := by rw [String.append_empty]
    _ = s ++ l.foldl (fun r t => r ++ t) "" := foldl_append_str l s ""

theorem join_map_of_mem {α : Type} (f : α → String) :
    ∀ (l : List α) (x : α), x ∈ l → ∃ a b, String.join (l.map f) = a ++ f x ++ b := by
  intro l x hx
  induction l with
  | nil => cases hx
  | cons y t ih =>
    rcases List.mem_cons.mp hx with h | h
    · subst h
      exact ⟨"", String.join (t.map f), by rw [List.map_cons, join_cons, String.empty_append]⟩
    · obtain ⟨a, b, hab⟩ := ih h
      refine ⟨f y ++ a, b, ?_⟩
      rw [List.map_cons, join_cons, hab, String.append_assoc, String.append_assoc,
        String.append_assoc]

/-- C1: for every Payload, `BuildSignature` returns exactly the concatenation,
over the eight signable fields taken in the fixed order Message, MessageId,
Subject, SubscribeURL, Timestamp, Token, TopicArn, Type, of
`"<FieldName>\n<FieldValue>\n"` for each field whose value is non-empty;
each present field appears exactly once, and an empty field contributes zero
bytes, identically to an absent field. -/
theorem buildSignature_is_canonical_concat (p : Payload) :
    buildSignature p = canonicalSpec p :=
  buildSignature_eq_canonical p

/-- C4: `SignatureAlgorithm` returns SHA-256-with-RSA iff the
`SignatureVersion` field equals `"2"`, and SHA-1-with-RSA for every other
value, including `"1"` and the empty string. -/
theorem signatureAlgorithm_selection (p : Payload) :
    (signatureAlgorithm p = SignatureAlgorithm.SHA256WithRSA ↔ p.SignatureVersion = "2") ∧
    (p.SignatureVersion ≠ "2" → signatureAlgorithm p = SignatureAlgorithm.SHA1WithRSA) := by
  by_cases h : p.SignatureVersion = "2" <;> simp [signatureAlgorithm, h]

/-- Witness for C4: a payload with `SignatureVersion = "1"` gets SHA-1-with-RSA,
and one with `SignatureVersion = "2"` gets SHA-256-with-RSA. -/
theorem signatureAlgorithm_selection_witness :
    signatureAlgorithm samplePayload = SignatureAlgorithm.SHA1WithRSA ∧
    signatureAlgorithm samplePayloadV2 = SignatureAlgorithm.SHA256WithRSA :=
  ⟨(signatureAlgorithm_selection samplePayload).2 (by decide),
   (signatureAlgorithm_selection samplePayloadV2).1.mpr (by decide)⟩

/-- C7: `BuildSignature` is deterministic: two payloads with identical field
values give byte-identical output. -/
theorem buildSignature_deterministic (p q : Payload)
    (h1 : p.Message = q.Message) (h2 : p.MessageId = q.MessageId)
    (h3 : p.Signature = q.Signature) (h4 : p.SignatureVersion = q.SignatureVersion)
    (h5 : p.SigningCertURL = q.SigningCertURL) (h6 : p.SubscribeURL = q.SubscribeURL)
    (h7 : p.Subject = q.Subject) (h8 : p.Timestamp = q.Timestamp)
    (h9 : p.Token = q.Token) (h10 : p.TopicArn = q.TopicArn)
    (h11 : p.«Type» = q.«Type») (h12 : p.UnsubscribeURL = q.UnsubscribeURL) :
    buildSignature p = buildSignature q := by
  have : p = q := by cases p; cases q; simp_all
  rw [this]

/-- Witness for C7 at a concrete payload. -/
theorem buildSignature_deterministic_witness :
    buildSignature samplePayload = buildSignature samplePayload :=
  buildSignature_deterministic samplePayload samplePayload rfl rfl rfl rfl rfl rfl rfl rfl
    rfl rfl rfl rfl

/-- C8: a non-empty signable field whose value contains embedded newline
characters is included verbatim in the canonical bytes, with no escaping or
transformation of the newlines. -/
theorem buildSignature_newlines_verbatim (p : Payload) (k v : String)
    (hmem : (k, v) ∈ signablePairs p) (hne : v ≠ "") (_hnl : '\n' ∈ v.data) :
    ∃ a b, buildSignature p = a ++ (k ++ "\n" ++ v ++ "\n") ++ b := by
  rw [buildSignature_eq_canonical]
  obtain ⟨a, b, hab⟩ := join_map_of_mem
    (fun kv => if kv.2 = "" then "" else kv.1 ++ "\n" ++ kv.2 ++ "\n") (signablePairs p) (k, v) hmem
  refine ⟨a, b, ?_⟩
  rw [canonicalSpec, hab]
  simp [hne]

/-- Witness for C8: a payload whose Message is "line1\nline2". -/
theorem buildSignature_newlines_verbatim_witness :
    ∃ a b, buildSignature samplePayloadNewline
      = a ++ ("Message" ++ "\n" ++ "line1\nline2" ++ "\n") ++ b :=
  buildSignature_newlines_verbatim samplePayloadNewline "Message" "line1\nline2"
    (by simp [signablePairs, samplePayloadNewline]) (by decide) (by decide)

/-- C9: `BuildSignature` depends only on the eight signable fields: payloads
agreeing on them but differing arbitrarily in Signature, SignatureVersion,
SigningCertURL or UnsubscribeURL give equal output. -/
theorem buildSignature_ignores_unsignable (p q : Payload)
    (h1 : p.Message = q.Message) (h2 : p.MessageId = q.MessageId)
    (h3 : p.Subject = q.Subject) (h4 : p.SubscribeURL = q.SubscribeURL)
    (h5 : p.Timestamp = q.Timestamp) (h6 : p.Token = q.Token)
    (h7 : p.TopicArn = q.TopicArn) (h8 : p.«Type» = q.«Type») :
    buildSignature p = buildSignature q := by
  rw [buildSignature_eq_canonical, buildSignature_eq_canonical]
  simp only [canonicalSpec, signablePairs, h1, h2, h3, h4, h5, h6, h7, h8]

/-- Witness for C9: the sample payload and a copy with all four unsignable
fields changed build the same signature string. -/
theorem buildSignature_ignores_unsignable_witness :
    buildSignature samplePayload = buildSignature samplePayloadOtherUnsignable :=
  buildSignature_ignores_unsignable samplePayload samplePayloadOtherUnsignable
    rfl rfl rfl rfl rfl rfl rfl rfl

theorem dropLit_eq_some (pre : List Char) :
    ∀ l rest, dropLit pre l = some rest ↔ l = pre ++ rest := by
  induction pre with
  | nil => intro l rest; simp [dropLit]
  | cons p ps ih =>
    intro l rest
    cases l with
    | nil => simp [dropLit]
    | cons c cs =>
      by_cases hc : c = p
      · simp [dropLit, hc, ih]
      · simp [dropLit, hc]

theorem takeWhile_append_of_all (p : Char → Bool) (l₁ l₂ : List Char)
    (h₁ : ∀ c ∈ l₁, p c = true) (h₂ : l₂.takeWhile p = []) :
    (l₁ ++ l₂).takeWhile p = l₁ := by
  induction l₁ with
  | nil => simpa using h₂
  | cons x t ih =>
    have hx : p x = true := h₁ x (List.mem_cons_self x t)
    simp only [List.cons_append, List.takeWhile_cons, hx, if_true]
    rw [ih (fun c hc => h₁ c (List.mem_cons_of_mem x hc))]

theorem dropWhile_append_of_all (p : Char → Bool) (l₁ l₂ : List Char)
    (h₁ : ∀ c ∈ l₁, p c = true) :
    (l₁ ++ l₂).dropWhile p = l₂.dropWhile p := by
  induction l₁ with
  | nil => rfl
  | cons x t ih =>
    have hx : p x = true := h₁ x (List.mem_cons_self x t)
    simp only [List.cons_append, List.dropWhile_cons, hx, if_true]
    exact ih (fun c hc => h₁ c (List.mem_cons_of_mem x hc))

theorem hostMatchList_iff (l : List Char) :
    hostMatchList l = true ↔
      ∃ region : List Char, 3 ≤ region.length ∧ (∀ c ∈ region, isRegionChar c = true) ∧
        (l = "sns.".data ++ region ++ ".amazonaws.com".data ∨
         l = "sns.".data ++ region ++ ".amazonaws.com.cn".data) := by
  constructor
  · intro h
    unfold hostMatchList at h
    cases hdl : dropLit "sns.".data l with
    | none => rw [hdl] at h; cases h
    | some rest =>
      rw [hdl] at h
      simp only [Bool.and_eq_true, Bool.or_eq_true, decide_eq_true_eq] at h
      refine ⟨rest.takeWhile isRegionChar, h.1, fun c hc => List.mem_takeWhile_imp hc, ?_⟩
      have hl : l = "sns.".data ++ rest := (dropLit_eq_some _ _ _).mp hdl
      have hsplit : rest.takeWhile isRegionChar ++ rest.dropWhile isRegionChar = rest :=
        List.takeWhile_append_dropWhile isRegionChar rest
      have hl2 : l = "sns.".data
          ++ (rest.takeWhile isRegionChar ++ rest.dropWhile isRegionChar) := by
        rw [hsplit]; exact hl
      rcases h.2 with hA | hB
      · left
        rw [hA] at hl2
        rw [hl2, List.append_assoc]
      · right
        rw [hB] at hl2
        rw [hl2, List.append_assoc]
  · rintro ⟨region, hlen, hall, hl | hl⟩
    · have hdl : dropLit "sns.".data l = some (region ++ ".amazonaws.com".data) :=
        (dropLit_eq_some _ _ _).mpr (by rw [hl, List.append_assoc])
      have htk : ((region ++ ".amazonaws.com".data).takeWhile isRegionChar) = region :=
        takeWhile_append_of_all isRegionChar region _ hall (by decide)
      have hdp : ((region ++ ".amazonaws.com".data).dropWhile isRegionChar)
          = ".amazonaws.com".data := by
        rw [dropWhile_append_of_all isRegionChar region _ hall]; decide
      unfold hostMatchList
      rw [hdl]
      simp [htk, hdp, hlen]
    · have hdl : dropLit "sns.".data l = some (region ++ ".amazonaws.com.cn".data) :=
        (dropLit_eq_some _ _ _).mpr (by rw [hl, List.append_assoc])
      have htk : ((region ++ ".amazonaws.com.cn".data).takeWhile isRegionChar) = region :=
        takeWhile_append_of_all isRegionChar region _ hall (by decide)
      have hdp : ((region ++ ".amazonaws.com.cn".data).dropWhile isRegionChar)
          = ".amazonaws.com.cn".data := by
        rw [dropWhile_append_of_all isRegionChar region _ hall]; decide
      unfold hostMatchList
      rw [hdl]
      simp [htk, hdp, hlen]

theorem hostMatch_iff (s : String) : hostMatch s = true ↔ hostSpecMatch s :=
  hostMatchList_iff s.data

/-- C3: the certificate-origin host check accepts exactly the hosts of the
form literal `sns.`, then 3 or more characters from `[a-zA-Z0-9-]`, then
literal `.amazonaws.com`, optionally followed by literal `.cn`, anchored at
both ends; in particular it accepts `sns.us-east-1.amazonaws.com` and
`sns.cn-north-1.amazonaws.com.cn`, rejects a region segment of 2 characters
and accepts one of exactly 3 characters. -/
theorem hostPattern_characterization :
    (∀ s : String, hostMatch s = true ↔ hostSpecMatch s) ∧
    hostMatch "sns.us-east-1.amazonaws.com" = true ∧
    hostMatch "sns.cn-north-1.amazonaws.com.cn" = true ∧
    hostMatch "sns.ab.amazonaws.com" = false ∧
    hostMatch "sns.abc.amazonaws.com" = true :=
  ⟨hostMatch_iff, by decide, by decide, by decide, by decide⟩

/-- Witness for C3: the accepted boundary host indeed has the spec's shape. -/
theorem hostPattern_characterization_witness :
    hostSpecMatch "sns.abc.amazonaws.com" :=
  (hostPattern_characterization.1 "sns.abc.amazonaws.com").mp (by decide)

theorem verifyPayloadAux_ok_inv {C : Type} (env : Env C) (p : Payload)
    (h : (verifyPayloadAux env p).1 = Except.ok ()) :
    ∃ sig u resp body der cert,
      env.base64Decode p.Signature = .ok sig ∧
      env.urlParse p.SigningCertURL = .ok u ∧
      u.scheme = "https" ∧ hostMatch u.host = true ∧
      env.httpGet p.SigningCertURL = .ok resp ∧
      resp.bodyRead = .ok body ∧
      env.pemDecode body = some der ∧
      env.parseCert der = .ok cert ∧
      env.checkSignature cert (signatureAlgorithm p) (buildSignature p) sig = .ok () := by
  cases hb : env.base64Decode p.Signature with
  | error e => simp [verifyPayloadAux, hb] at h
  | ok sig =>
  cases hu : env.urlParse p.SigningCertURL with
  | error e => simp [verifyPayloadAux, hb, hu] at h
  | ok u =>
  by_cases hs : u.scheme = "https"
  · cases hh : hostMatch u.host with
    | false => simp [verifyPayloadAux, hb, hu, hs, hh] at h
    | true =>
      cases hg : env.httpGet p.SigningCertURL with
      | error e => simp [verifyPayloadAux, hb, hu, hs, hh, hg] at h
      | ok resp =>
      cases hr : resp.bodyRead with
      | error e => simp [verifyPayloadAux, hb, hu, hs, hh, hg, hr] at h
      | ok body =>
      cases hpem : env.pemDecode body with
      | none => simp [verifyPayloadAux, hb, hu, hs, hh, hg, hr, hpem] at h
      | some der =>
      cases hc : env.parseCert der with
      | error e => simp [verifyPayloadAux, hb, hu, hs, hh, hg, hr, hpem, hc] at h
      | ok cert =>
        refine ⟨sig, u, resp, body, der, cert, ?_, ?_, ?_, ?_, ?_, ?_, ?_, ?_, ?_⟩ <;>
          first
          | assumption
          | rfl
          | simpa [verifyPayloadAux, hb, hu, hs, hh, hg, hr, hpem, hc] using h
  · simp [verifyPayloadAux, hb, hu, hs] at h

/-- C2: `VerifyPayload` returns success only if the parsed SigningCertURL
has scheme `https`, its host matches the origin-host pattern, and the
certificate — the one parsed from the PEM block of the body fetched from
the SigningCertURL — validates the decoded signature over the canonical
bytes; if any of the three fails the result is an error. -/
theorem verifyPayload_trust_invariant {C : Type} (env : Env C) (p : Payload)
    (h : verifyPayload env p = Except.ok ()) :
    ∃ sig u resp body der cert,
      env.base64Decode p.Signature = .ok sig ∧
      env.urlParse p.SigningCertURL = .ok u ∧
      u.scheme = "https" ∧ hostMatch u.host = true ∧
      env.httpGet p.SigningCertURL = .ok resp ∧
      resp.bodyRead = .ok body ∧
      env.pemDecode body = some der ∧
      env.parseCert der = .ok cert ∧
      env.checkSignature cert (signatureAlgorithm p) (buildSignature p) sig = .ok () :=
  verifyPayloadAux_ok_inv env p h

/-- Witness for C2: in an all-succeeding environment, verification succeeds
at the sample payload and the whole trust chain — https scheme, matching
host, fetched body, PEM block, parsed certificate, validated signature —
is exhibited. -/
theorem verifyPayload_trust_invariant_witness :
    ∃ sig u resp body der cert,
      okEnv.base64Decode samplePayload.Signature = .ok sig ∧
      okEnv.urlParse samplePayload.SigningCertURL = .ok u ∧
      u.scheme = "https" ∧ hostMatch u.host = true ∧
      okEnv.httpGet samplePayload.SigningCertURL = .ok resp ∧
      resp.bodyRead = .ok body ∧
      okEnv.pemDecode body = some der ∧
      okEnv.parseCert der = .ok cert ∧
      okEnv.checkSignature cert (signatureAlgorithm samplePayload)
        (buildSignature samplePayload) sig = .ok () :=
  verifyPayload_trust_invariant okEnv samplePayload rfl

/-- C5: `VerifyPayload` performs no fetch unless base64 decoding, URL
parsing, the https scheme check and the host-pattern check all succeed;
each of these failures returns its error with zero fetches. -/
theorem verifyPayload_no_fetch_before_validation {C : Type} (env : Env C) (p : Payload) :
    (∀ e, env.base64Decode p.Signature = .error e →
       verifyPayloadAux env p = (.error e, 0)) ∧
    (∀ sig e, env.base64Decode p.Signature = .ok sig →
       env.urlParse p.SigningCertURL = .error e →
       verifyPayloadAux env p = (.error e, 0)) ∧
    (∀ sig u, env.base64Decode p.Signature = .ok sig →
       env.urlParse p.SigningCertURL = .ok u → u.scheme ≠ "https" →
       verifyPayloadAux env p = (.error "url should be using https", 0)) ∧
    (∀ sig u, env.base64Decode p.Signature = .ok sig →
       env.urlParse p.SigningCertURL = .ok u → u.scheme = "https" →
       hostMatch u.host = false →
       verifyPayloadAux env p = (.error "certificate is located on an invalid domain", 0)) ∧
    (1 ≤ verifyPayloadFetches env p →
       (∃ sig, env.base64Decode p.Signature = .ok sig) ∧
       (∃ u, env.urlParse p.SigningCertURL = .ok u ∧ u.scheme = "https" ∧
          hostMatch u.host = true)) := by
  refine ⟨?_, ?_, ?_, ?_, ?_⟩
  · intro e hb; simp [verifyPayloadAux, hb]
  · intro sig e hb hu; simp [verifyPayloadAux, hb, hu]
  · intro sig u hb hu hs; simp [verifyPayloadAux, hb, hu, hs]
  · intro sig u hb hu hs hh; simp [verifyPayloadAux, hb, hu, hs, hh]
  · intro hcount
    cases hb : env.base64Decode p.Signature with
    | error e => simp [verifyPayloadFetches, verifyPayloadAux, hb] at hcount
    | ok sig =>
    cases hu : env.urlParse p.SigningCertURL with
    | error e => simp [verifyPayloadFetches, verifyPayloadAux, hb, hu] at hcount
    | ok u =>
    by_cases hs : u.scheme = "https"
    · cases hh : hostMatch u.host with
      | false => simp [verifyPayloadFetches, verifyPayloadAux, hb, hu, hs, hh] at hcount
      | true =>
        refine ⟨⟨sig, ?_⟩, u, ?_, ?_, ?_⟩ <;> first | assumption | rfl
    · simp [verifyPayloadFetches, verifyPayloadAux, hb, hu, hs] at hcount

/-- Witness for C5: a bad base64 signature is rejected with zero fetches,
and a non-https certificate URL is rejected with zero fetches. -/
theorem verifyPayload_no_fetch_before_validation_witness :
    verifyPayloadAux badBase64Env samplePayload
      = (.error "illegal base64 data at input byte 0", 0) ∧
    verifyPayloadAux httpSchemeEnv samplePayload
      = (.error "url should be using https", 0) :=
  ⟨(verifyPayload_no_fetch_before_validation badBase64Env samplePayload).1 _ rfl,
   (verifyPayload_no_fetch_before_validation httpSchemeEnv samplePayload).2.2.1 [0]
     ⟨"http", "sns.us-east-1.amazonaws.com"⟩ rfl rfl (by decide)⟩

/-- Counterexample to C6 as stated: the certificate GET answers with HTTP
status 404 (non-2xx), yet `VerifyPayload` does not fail with a fetch error —
it processes the response body as certificate bytes and succeeds. -/
theorem verifyPayload_non2xx_counterexample :
    non2xxEnv.httpGet samplePayload.SigningCertURL = .ok ⟨404, .ok [1]⟩ ∧
    ¬ (200 ≤ 404 ∧ 404 ≤ 299) ∧
    verifyPayload non2xxEnv samplePayload = .ok () :=
  ⟨rfl, by decide, rfl⟩

/-- C6 (amended): a transport failure of the certificate GET makes
`VerifyPayload` fail with that fetch error; on any received response the
HTTP status is never inspected — the result is the processing of the
response body as certificate bytes, whatever the status. -/
theorem verifyPayload_fetch_handling {C : Type} (env : Env C) (p : Payload)
    (sig : List Nat) (u : Url)
    (hb : env.base64Decode p.Signature = .ok sig)
    (hu : env.urlParse p.SigningCertURL = .ok u)
    (hs : u.scheme = "https") (hh : hostMatch u.host = true) :
    (∀ e, env.httpGet p.SigningCertURL = .error e → verifyPayload env p = .error e) ∧
    (∀ resp, env.httpGet p.SigningCertURL = .ok resp →
       verifyPayload env p = processCertBody env p sig resp.bodyRead) := by
  constructor
  · intro e hg; simp [verifyPayload, verifyPayloadAux, hb, hu, hs, hh, hg]
  · intro resp hg
    cases hr : resp.bodyRead with
    | error e => simp [verifyPayload, verifyPayloadAux, processCertBody, hb, hu, hs, hh, hg, hr]
    | ok body =>
      cases hpem : env.pemDecode body with
      | none =>
        simp [verifyPayload, verifyPayloadAux, processCertBody, hb, hu, hs, hh, hg, hr, hpem]
      | some der =>
        cases hc : env.parseCert der with
        | error e =>
          simp [verifyPayload, verifyPayloadAux, processCertBody,
            hb, hu, hs, hh, hg, hr, hpem, hc]
        | ok cert =>
          simp [verifyPayload, verifyPayloadAux, processCertBody,
            hb, hu, hs, hh, hg, hr, hpem, hc]

/-- Witness for C6 (amended): a concrete transport error is propagated. -/
theorem verifyPayload_fetch_handling_witness :
    verifyPayload transportErrEnv samplePayload = .error "connection refused" :=
  (verifyPayload_fetch_handling transportErrEnv samplePayload [0]
    ⟨"https", "sns.us-east-1.amazonaws.com"⟩ rfl rfl rfl (by decide)).1
    "connection refused" rfl

/-- C10: with an empty SubscribeURL, `Subscribe` returns the zero response
record and an error with zero fetches, while `Unsubscribe` performs its GET
unconditionally (exactly one fetch, no empty-URL precondition check). -/
theorem subscribe_empty_url_check (C : Type) (env : Env C) (p : Payload)
    (h : p.SubscribeURL = "") :
    subscribeAux env p = ((⟨"", ""⟩, some "Payload does not have a SubscribeURL!"), 0) ∧
    (unsubscribeAux env p).2 = 1 := by
  constructor
  · simp [subscribeAux, h]
  · cases hg : env.httpGet p.UnsubscribeURL with
    | error e => simp [unsubscribeAux, hg]
    | ok resp =>
      cases hr : resp.bodyRead with
      | error e => simp [unsubscribeAux, hg, hr]
      | ok body => simp [unsubscribeAux, hg, hr]

/-- Witness for C10 at a concrete payload with empty SubscribeURL. -/
theorem subscribe_empty_url_check_witness :
    subscribeAux okEnv samplePayloadNoSub
      = ((⟨"", ""⟩, some "Payload does not have a SubscribeURL!"), 0) ∧
    (unsubscribeAux okEnv samplePayloadNoSub).2 = 1 :=
  subscribe_empty_url_check Unit okEnv samplePayloadNoSub rfl

end Sns
